import Mathlib

/-!
# Verification of the strength program generation engine

Shallow embedding of `backend/app/services/strength_program_generator.py`
(class `StrengthProgramGenerator`) together with the input/output record
types of `backend/app/schemas/program.py`.

Modelling conventions:
* Python `float` inputs are modelled by `ℚ` (the spec fixes exact
  round-half-to-even arithmetic as the numeric contract), Python `int`
  by `ℤ` and Python `bool` by `Bool`.
* Python's builtin `round` (round half to even, to an `int`) is `pyRound`.
* Python `dict` literals keyed by `int` or `str` are association lists in
  source order; `d.get(k, default)` is `dictGetD`, `d.get(k)` is
  `dictGet?`, the raising subscript `d[k]` is a lookup whose `none` case
  propagates a `KeyError`, and `d[k] = v` is `dictInsert` (replace in
  place, else append, preserving insertion order).
* An uncaught Python exception is the `Except.error` case of
  `Except PyError`; code that cannot raise stays pure.
* The f-string rendering of a number is modelled by `toString` on the
  embedded value.
-/

namespace StrengthProgramGenerator

/-- `MovementInput` of `app/schemas/program.py`: one exercise's tested
capacity and the chosen target working weight. -/
structure MovementInput where
  name : String
  one_rm : ℚ
  max_reps_at_80_percent : ℤ
  target_weight : ℚ
  deriving DecidableEq

/-- `ProgramInputs` of `app/schemas/program.py`. -/
structure ProgramInputs where
  builder_type : String := "strength_linear_5x5"
  name : Option String := none
  description : Option String := none
  movements : List MovementInput
  duration_weeks : ℤ := 8
  days_per_week : ℤ := 4
  is_template : Bool := true
  deriving DecidableEq

/-- `MovementCalculations` of `app/schemas/program.py`: derived
progression profile of one movement. -/
structure MovementCalculations where
  name : String
  weekly_jump_percent : ℤ
  weekly_jump_lbs : ℤ
  ramp_up_percent : ℤ
  ramp_up_base_lbs : ℤ
  deriving DecidableEq

/-- `ExerciseDetail` of `app/schemas/program.py`. -/
structure ExerciseDetail where
  exercise_name : String
  sets : ℤ
  reps : ℤ
  weight_lbs : Option ℚ := none
  percentage_1rm : Option ℤ := none
  notes : String := ""
  deriving DecidableEq, Inhabited

/-- `DayDetail` of `app/schemas/program.py`. -/
structure DayDetail where
  day_number : ℤ
  name : String
  suggested_day_of_week : Option String := none
  exercises : List ExerciseDetail
  deriving DecidableEq

/-- `WeekDetail` of `app/schemas/program.py`. -/
structure WeekDetail where
  week_number : ℤ
  name : String
  days : List DayDetail
  deriving DecidableEq

/-- `ProgramPreview` of `app/schemas/program.py`; `input_data` is the
verbatim echo of the inputs (`inputs.model_dump()`). -/
structure ProgramPreview where
  algorithm_version : String
  input_data : ProgramInputs
  calculated_data : List (String × MovementCalculations)
  weeks : List WeekDetail
  deriving DecidableEq

/-- An uncaught Python exception relevant to the engine: a `KeyError`
on an `int`- or `str`-keyed dictionary subscript. -/
inductive PyError where
  | keyErrorInt : ℤ → PyError
  | keyErrorStr : String → PyError
  deriving DecidableEq

/-- `StrengthProgramGenerator.VERSION`. -/
def VERSION : String := "v1.0.0"

/-- `StrengthProgramGenerator.BUILDER_TYPE`. -/
def BUILDER_TYPE : String := "strength_linear_5x5"

/-- `WEEKLY_JUMP_TABLE`: max reps at 80% of 1RM → weekly progression
percentage, in source order. -/
def WEEKLY_JUMP_TABLE : List (ℤ × ℤ) :=
  [(20, 2), (19, 2), (18, 2), (17, 2), (16, 2),
   (15, 3), (14, 3), (13, 3), (12, 3), (11, 3),
   (10, 4), (9, 4), (8, 4), (7, 4), (6, 4),
   (5, 5), (4, 5), (3, 5), (2, 5), (1, 5)]

/-- `RAMP_UP_TABLE`: max reps at 80% of 1RM → starting percentage for
the ramp-up test, in source order. -/
def RAMP_UP_TABLE : List (ℤ × ℤ) :=
  [(20, 70), (19, 69), (18, 68), (17, 67), (16, 66),
   (15, 65), (14, 64), (13, 63), (12, 62), (11, 61),
   (10, 60), (9, 59), (8, 58), (7, 57), (6, 56),
   (5, 55), (4, 54), (3, 53), (2, 52), (1, 51)]

/-- `PROTOCOL_BY_WEEK`: week number → (sets, reps). -/
def PROTOCOL_BY_WEEK : List (ℤ × (ℤ × ℤ)) :=
  [(1, (5, 5)), (2, (5, 5)), (3, (5, 5)), (4, (5, 5)), (5, (5, 5)),
   (6, (3, 3)),
   (7, (2, 2)),
   (8, (1, 1))]

/-- Python `d.get(k)` on an `int`-keyed dict of ints. -/
def dictGet? (t : List (ℤ × ℤ)) (k : ℤ) : Option ℤ :=
  (t.find? (fun p => p.1 == k)).map (fun p => p.2)

/-- Python `d.get(k, fallback)` on an `int`-keyed dict of ints. -/
def dictGetD (t : List (ℤ × ℤ)) (k fallback : ℤ) : ℤ :=
  (dictGet? t k).getD fallback

/-- Python's builtin `round` to an integer: round half to even
(banker's rounding), the rounding rule the engine's numeric contract
fixes. -/
def pyRound (q : ℚ) : ℤ :=
  let n := ⌊q⌋
  let frac := q - n
  if frac < 1 / 2 then n
  else if 1 / 2 < frac then n + 1
  else if n % 2 = 0 then n else n + 1

/-- Python `range(a, b)` as the list `[a, a+1, ..., b-1]` (empty when
`b ≤ a`). -/
def pyRange (a b : ℤ) : List ℤ :=
  (List.range (b - a).toNat).map (fun (i : ℕ) => a + (i : ℤ))

/-- A Python `for` loop that appends `f x` for each `x`, where `f` may
raise: the first exception aborts the loop and propagates. -/
def mapExcept {α β : Type} (f : α → Except PyError β) : List α → Except PyError (List β)
  | [] => .ok []
  | x :: xs =>
    match f x with
    | .error e => .error e
    | .ok y =>
      match mapExcept f xs with
      | .error e => .error e
      | .ok ys => .ok (y :: ys)

/-- Body of the loop of `_calculate_movement_data`: the progression
profile of one movement (the spec's `MovementCalculator.compute`). -/
def computeMovement (movement : MovementInput) : MovementCalculations :=
  let weekly_jump_pct := dictGetD WEEKLY_JUMP_TABLE movement.max_reps_at_80_percent 5
  let weekly_jump_lbs := pyRound (movement.one_rm * (weekly_jump_pct : ℚ) / 100)
  let ramp_up_pct := dictGetD RAMP_UP_TABLE movement.max_reps_at_80_percent 55
  let ramp_up_base_lbs := pyRound (movement.one_rm * (ramp_up_pct : ℚ) / 100)
  { name := movement.name
    weekly_jump_percent := weekly_jump_pct
    weekly_jump_lbs := weekly_jump_lbs
    ramp_up_percent := ramp_up_pct
    ramp_up_base_lbs := ramp_up_base_lbs }

/-- Python `result[movement.name] = ...` on a `str`-keyed dict:
replace an existing key in place, otherwise append. -/
def dictInsert (d : List (String × MovementCalculations)) (k : String)
    (v : MovementCalculations) : List (String × MovementCalculations) :=
  if d.any (fun p => p.1 == k) then
    d.map (fun p => if p.1 == k then (k, v) else p)
  else
    d ++ [(k, v)]

/-- Python `calculated_data[movement.name]` lookup (before raising). -/
def dictFind? (d : List (String × MovementCalculations)) (k : String) :
    Option MovementCalculations :=
  (d.find? (fun p => p.1 == k)).map (fun p => p.2)

/-- `_calculate_movement_data`: progression parameters for each
movement, keyed by movement name (later duplicates overwrite). -/
def calculate_movement_data (movements : List MovementInput) :
    List (String × MovementCalculations) :=
  movements.foldl (fun result movement =>
    dictInsert result movement.name (computeMovement movement)) []

/-- The heavy-day weight of `_calculate_exercise` (its first
`if`/`elif` chain on the week number). -/
def heavy_weight_for (movement : MovementInput) (week_num : ℤ)
    (calc_data : MovementCalculations) : ℚ :=
  if week_num ≤ 5 then
    movement.target_weight - (((5 - week_num) * calc_data.weekly_jump_lbs : ℤ) : ℚ)
  else if week_num = 6 then
    movement.target_weight + (calc_data.weekly_jump_lbs : ℚ)
  else if week_num = 7 then
    movement.target_weight + ((2 * calc_data.weekly_jump_lbs : ℤ) : ℚ)
  else
    0

/-- `_calculate_exercise`: prescribed weight, percentage of 1RM and the
polarity-encoded exercise label for one movement on one day. -/
def calculate_exercise (movement : MovementInput) (week_num : ℤ)
    (calc_data : MovementCalculations) (sets reps : ℤ) (is_heavy : Bool) :
    ExerciseDetail :=
  let heavy_weight := heavy_weight_for movement week_num calc_data
  let weight : ℚ := if is_heavy then heavy_weight else (pyRound (heavy_weight * 0.8) : ℚ)
  let percentage_1rm : Option ℤ :=
    if 0 < weight then some (pyRound (weight / movement.one_rm * 100)) else none
  let exercise_name := if is_heavy then movement.name.toUpper else movement.name.toLower
  { exercise_name := exercise_name
    sets := sets
    reps := reps
    weight_lbs := if 0 < weight then some weight else none
    percentage_1rm := percentage_1rm
    notes := "" }

/-- The `day_names` dict of `_generate_day`. -/
def DAY_NAMES : List (ℤ × String) :=
  [(1, "Monday"), (2, "Wednesday"), (3, "Friday"), (4, "Saturday")]

/-- `_generate_day`: one training day; raises `KeyError` if a movement
name is missing from `calculated_data`. -/
def generate_day (day_num week_num : ℤ) (inputs : ProgramInputs)
    (calculated_data : List (String × MovementCalculations))
    (sets reps : ℤ) (is_heavy : Bool) : Except PyError DayDetail :=
  let intensity := if is_heavy then "Heavy" else "Light"
  let day_name := "Session " ++ toString day_num ++ " - " ++ intensity ++ " Day"
  match mapExcept (fun movement =>
      match dictFind? calculated_data movement.name with
      | none => .error (.keyErrorStr movement.name)
      | some calc_data =>
        .ok (calculate_exercise movement week_num calc_data sets reps is_heavy))
      inputs.movements with
  | .error e => .error e
  | .ok exercises =>
    .ok { day_number := day_num
          name := day_name
          suggested_day_of_week := ((DAY_NAMES.find? (fun p => p.1 == day_num)).map (fun p => p.2))
          exercises := exercises }

/-- `_generate_test_day`: the single 1RM test day of week 8. -/
def generate_test_day (inputs : ProgramInputs) : DayDetail :=
  { day_number := 1
    name := "1RM Test Day"
    suggested_day_of_week := some "Wednesday"
    exercises := inputs.movements.map (fun movement =>
      { exercise_name := movement.name.toUpper
        sets := 1
        reps := 1
        weight_lbs := none
        percentage_1rm := some 100
        notes := "Test new 1RM. Previous: " ++ toString movement.one_rm ++ " lbs" }) }

/-- The `week_names` dict of `_get_week_name`. -/
def WEEK_NAMES : List (ℤ × String) :=
  [(1, "Foundation Phase"),
   (2, "Building Phase - Week 2"),
   (3, "Building Phase - Week 3"),
   (4, "Building Phase - Week 4"),
   (5, "Building Phase - Week 5"),
   (6, "Intensification Phase"),
   (7, "Peak Phase"),
   (8, "Testing Week")]

/-- `_get_week_name`. -/
def get_week_name (week_num : ℤ) : String :=
  (((WEEK_NAMES.find? (fun p => p.1 == week_num)).map (fun p => p.2))).getD
    ("Week " ++ toString week_num)

/-- `_generate_week`: one week; week 8 is the hard-wired test week,
other weeks subscript `PROTOCOL_BY_WEEK` (raising `KeyError` when the
week has no protocol entry) and build `days_per_week` days. -/
def generate_week (week_num : ℤ) (inputs : ProgramInputs)
    (calculated_data : List (String × MovementCalculations)) :
    Except PyError WeekDetail :=
  let week_name := get_week_name week_num
  let daysE : Except PyError (List DayDetail) :=
    if week_num = 8 then
      .ok [generate_test_day inputs]
    else
      match (PROTOCOL_BY_WEEK.find? (fun p => p.1 == week_num)).map (fun p => p.2) with
      | none => .error (.keyErrorInt week_num)
      | some (sets, reps) =>
        mapExcept (fun day_num =>
            generate_day day_num week_num inputs calculated_data sets reps
              (day_num % 2 == 1))
          (pyRange 1 (inputs.days_per_week + 1))
  match daysE with
  | .error e => .error e
  | .ok days =>
    .ok { week_number := week_num, name := week_name, days := days }

/-- `_generate_weeks`: weeks `1 .. duration_weeks`. -/
def generate_weeks (inputs : ProgramInputs)
    (calculated_data : List (String × MovementCalculations)) :
    Except PyError (List WeekDetail) :=
  mapExcept (fun week_num => generate_week week_num inputs calculated_data)
    (pyRange 1 (inputs.duration_weeks + 1))

/-- `generate_preview`: the public entry point (the spec's
`generate`). -/
def generate_preview (inputs : ProgramInputs) : Except PyError ProgramPreview :=
  let calculated_data := calculate_movement_data inputs.movements
  match generate_weeks inputs calculated_data with
  | .error e => .error e
  | .ok weeks =>
    .ok { algorithm_version := VERSION
          input_data := inputs
          calculated_data := calculated_data
          weeks := weeks }

/-- The spec's concrete scenario movement: Squat, 1RM 200,
12 reps at 80%, target 180. -/
def sampleMovement : MovementInput :=
  { name := "Squat", one_rm := 200, max_reps_at_80_percent := 12, target_weight := 180 }

/-- The spec's concrete scenario inputs: one movement, 8 weeks,
4 days per week. -/
def sampleInputs : ProgramInputs :=
  { movements := [sampleMovement] }

/-- The spec's boundary scenario: `duration_weeks = 9`. -/
def nineInputs : ProgramInputs :=
  { movements := [sampleMovement], duration_weeks := 9 }

/-- A movement that is valid per the input schema (`one_rm > 0`,
`target_weight > 0`, `max_reps_at_80_percent ∈ [1, 20]`) but whose
target weight is below four weekly jumps: 1RM 100 at 1 rep gives a 5%
jump of 5 lbs, and the week-1 heavy weight is 10 − 4·5 = −10. -/
def cexMovement : MovementInput :=
  { name := "Squat", one_rm := 100, max_reps_at_80_percent := 1, target_weight := 10 }

/-- A minimal program request around `cexMovement`. -/
def cexInputs : ProgramInputs :=
  { movements := [cexMovement], duration_weeks := 1, days_per_week := 1 }

/-- A movement whose rep capacity lies outside the 1–20 table domain. -/
def reps21Movement : MovementInput :=
  { name := "Press", one_rm := 100, max_reps_at_80_percent := 21, target_weight := 80 }

/-- A request for fewer than 8 weeks. -/
def shortInputs : ProgramInputs :=
  { movements := [sampleMovement], duration_weeks := 3 }

/-!
## Helper lemmas
-/

lemma cexMovement_calc : computeMovement cexMovement =
    { name := "Squat", weekly_jump_percent := 5, weekly_jump_lbs := 5,
      ramp_up_percent := 51, ramp_up_base_lbs := 51 } := by
  have h1 : dictGetD WEEKLY_JUMP_TABLE 1 5 = 5 := by decide
  have h2 : dictGetD RAMP_UP_TABLE 1 55 = 51 := by decide
  have h3 : cexMovement.max_reps_at_80_percent = 1 := rfl
  simp only [computeMovement, h3, h1, h2]
  have h4 : cexMovement.one_rm = 100 := rfl
  rw [h4]
  norm_num [pyRound]
  rfl

lemma cexMovement_week1_heavy :
    calculate_exercise cexMovement 1 (computeMovement cexMovement) 5 5 true =
      { exercise_name := "Squat".toUpper, sets := 5, reps := 5, weight_lbs := none,
        percentage_1rm := none, notes := "" } := by
  rw [cexMovement_calc]
  simp only [calculate_exercise, heavy_weight_for]
  have h4 : cexMovement.target_weight = 10 := rfl
  have h5 : cexMovement.name = "Squat" := rfl
  rw [h4, h5]
  norm_num

/-- Full evaluation of the generator on `cexInputs`; the single
exercise term is kept unreduced so the equation is definitional. -/
lemma cex_eval : generate_preview cexInputs = .ok
    { algorithm_version := VERSION
      input_data := cexInputs
      calculated_data := [("Squat", computeMovement cexMovement)]
      weeks := [{ week_number := 1
                  name := get_week_name 1
                  days := [{ day_number := 1
                             name := "Session " ++ toString (1 : ℤ) ++ " - " ++ "Heavy" ++ " Day"
                             suggested_day_of_week := some "Monday"
                             exercises := [calculate_exercise cexMovement 1
                               (computeMovement cexMovement) 5 5 true] }] }] } := rfl

lemma sampleMovement_calc : computeMovement sampleMovement =
    { name := "Squat", weekly_jump_percent := 3, weekly_jump_lbs := 6,
      ramp_up_percent := 62, ramp_up_base_lbs := 124 } := by
  have h1 : dictGetD WEEKLY_JUMP_TABLE 12 5 = 3 := by decide
  have h2 : dictGetD RAMP_UP_TABLE 12 55 = 62 := by decide
  have h3 : sampleMovement.max_reps_at_80_percent = 12 := rfl
  simp only [computeMovement, h3, h1, h2]
  have h4 : sampleMovement.one_rm = 200 := rfl
  rw [h4]
  norm_num [pyRound]
  rfl

lemma sampleMovement_week1_light :
    (calculate_exercise sampleMovement 1 (computeMovement sampleMovement) 5 5 false).weight_lbs
      = some 125 := by
  rw [sampleMovement_calc]
  simp only [calculate_exercise, heavy_weight_for]
  have h4 : sampleMovement.target_weight = 180 := rfl
  rw [h4]
  norm_num [pyRound]

/-- Every key of `WEEKLY_JUMP_TABLE` and `RAMP_UP_TABLE` lies in
`[1, 20]`, so an out-of-range lookup falls to the default. -/
lemma find?_key_eq_none {β : Type} (t : List (ℤ × β)) (k : ℤ) (h : ∀ p ∈ t, p.1 ≠ k) :
    t.find? (fun p => p.1 == k) = none := by
  induction t with
  | nil => rfl
  | cons a l ih =>
    have ha : (a.1 == k) = false := by
      simpa using h a (List.mem_cons_self a l)
    simp only [List.find?_cons, ha, cond_false]
    exact ih (fun p hp => h p (List.mem_cons_of_mem a hp))

lemma dictGetD_weekly_out (k : ℤ) (h : k < 1 ∨ 20 < k) :
    dictGetD WEEKLY_JUMP_TABLE k 5 = 5 := by
  unfold dictGetD dictGet?
  rw [find?_key_eq_none]
  · rfl
  · intro p hp
    fin_cases hp <;> simp <;> omega

lemma dictGetD_ramp_out (k : ℤ) (h : k < 1 ∨ 20 < k) :
    dictGetD RAMP_UP_TABLE k 55 = 55 := by
  unfold dictGetD dictGet?
  rw [find?_key_eq_none]
  · rfl
  · intro p hp
    fin_cases hp <;> simp <;> omega

/-!
## C1: determinism of `generate_preview`
-/

/-- C1. `generate_preview` is a pure function: two calls with
identical `ProgramInputs` return structurally and numerically
identical output, so the preview call site and the commit call site
receive the same value for the same inputs. -/
theorem generate_preview_deterministic (i1 i2 : ProgramInputs) (h : i1 = i2) :
    generate_preview i1 = generate_preview i2 := by
  rw [h]

/-- Witness for C1 at the spec's concrete scenario inputs. -/
theorem generate_preview_deterministic_witness :
    generate_preview sampleInputs = generate_preview sampleInputs :=
  generate_preview_deterministic sampleInputs sampleInputs rfl

/-!
## C3: `duration_weeks = 9`
-/

/-- C3 (code behavior at the failing input). With `duration_weeks = 9`
the generator does not raise a named unsupported-duration error: week 9
reaches the `PROTOCOL_BY_WEEK[week_num]` subscript with no entry and
the bare missing-key failure (`KeyError: 9`) propagates out of
`generate_preview`. -/
theorem duration_nine_keyerror :
    generate_preview nineInputs = .error (.keyErrorInt 9) := rfl

/-!
## C2: nullability of `weight_lbs`
-/

/-- Counterexample to C2 as stated: `cexMovement` is valid
(`one_rm > 0`, `target_weight > 0`, `max_reps_at_80_percent ∈ [1, 20]`),
yet the generated program contains a non-test week (week 1) whose
exercise has `weight_lbs = none`, because the computed heavy weight
10 − 4·5 = −10 is not positive. -/
theorem weight_null_cex :
    (0 < cexMovement.one_rm ∧ 0 < cexMovement.target_weight ∧
      1 ≤ cexMovement.max_reps_at_80_percent ∧ cexMovement.max_reps_at_80_percent ≤ 20) ∧
    ∃ p, generate_preview cexInputs = .ok p ∧
      ∃ w, w ∈ p.weeks ∧ w.week_number ≠ 8 ∧
        ∃ d, d ∈ w.days ∧ ∃ e, e ∈ d.exercises ∧ e.weight_lbs = none := by
  refine ⟨⟨by decide, by decide, by decide, by decide⟩, _, cex_eval, ?_⟩
  refine ⟨_, List.mem_singleton.mpr rfl, by decide, _, List.mem_singleton.mpr rfl,
    _, List.mem_singleton.mpr rfl, ?_⟩
  rw [cexMovement_week1_heavy]

/-- C2 amended: `weight_lbs` is `none` exactly when the computed
session weight is not positive.  In week 8 it is always `none`; in a
non-test week it can also be `none`, namely when the week's heavy
weight (or its rounded 80% light value) is ≤ 0. -/
theorem weight_null_iff (m : MovementInput) (w : ℤ) (cd : MovementCalculations)
    (s r : ℤ) (hv : Bool) :
    ((calculate_exercise m w cd s r hv).weight_lbs = none ↔
      (if hv then heavy_weight_for m w cd
       else ((pyRound (heavy_weight_for m w cd * 0.8) : ℤ) : ℚ)) ≤ 0) ∧
    (w = 8 → (calculate_exercise m w cd s r hv).weight_lbs = none) := by
  constructor
  · simp only [calculate_exercise]
    split
    · simp_all
    · simp_all [not_lt]
  · intro hw
    subst hw
    have h0 : heavy_weight_for m 8 cd = 0 := by norm_num [heavy_weight_for]
    cases hv
    all_goals simp [calculate_exercise, h0]
    all_goals norm_num [pyRound]

/-- Witness for C2's amended statement: week 8 gives a null weight. -/
theorem weight_null_iff_witness :
    (calculate_exercise sampleMovement 8 (computeMovement sampleMovement) 1 1 true).weight_lbs
      = none :=
  (weight_null_iff sampleMovement 8 (computeMovement sampleMovement) 1 1 true).2 rfl

/-!
## C4: the heavy-day progression line
-/

/-- C4. The heavy-day weight: for weeks `1 ≤ w ≤ 5` it is
`target_weight − (5 − w)·weekly_jump_lbs` (so week 5 is exactly the
target and week 1 is four jumps below it); week 6 adds one jump and
week 7 adds two. -/
theorem heavy_weight_formula (m : MovementInput) (cd : MovementCalculations) (w : ℤ)
    (_h1 : 1 ≤ w) (h5 : w ≤ 5) :
    heavy_weight_for m w cd = m.target_weight - (((5 - w) * cd.weekly_jump_lbs : ℤ) : ℚ) ∧
    heavy_weight_for m 5 cd = m.target_weight ∧
    heavy_weight_for m 1 cd = m.target_weight - ((4 * cd.weekly_jump_lbs : ℤ) : ℚ) ∧
    heavy_weight_for m 6 cd = m.target_weight + (cd.weekly_jump_lbs : ℚ) ∧
    heavy_weight_for m 7 cd = m.target_weight + ((2 * cd.weekly_jump_lbs : ℤ) : ℚ) := by
  refine ⟨?_, ?_, ?_, ?_, ?_⟩
  · rw [heavy_weight_for, if_pos h5]
  · norm_num [heavy_weight_for]
  · norm_num [heavy_weight_for]
  · norm_num [heavy_weight_for]
  · norm_num [heavy_weight_for]

/-- Witness for C4 at week 3 of the spec's concrete scenario. -/
theorem heavy_weight_formula_witness :
    heavy_weight_for sampleMovement 3 (computeMovement sampleMovement) =
      sampleMovement.target_weight -
        (((5 - 3) * (computeMovement sampleMovement).weekly_jump_lbs : ℤ) : ℚ) :=
  (heavy_weight_formula sampleMovement (computeMovement sampleMovement) 3
    (by decide) (by decide)).1

/-!
## C5: light days derive from the same week's heavy weight
-/

/-- C5. Whenever a light-day exercise carries a weight, that weight is
`round(heavy_weight × 0.8)` for the same week's heavy weight — both
against the internal heavy value and against the weight the same
week's heavy day actually prescribes. -/
theorem light_weight_derivation (m : MovementInput) (w : ℤ) (cd : MovementCalculations)
    (s r : ℤ) :
    (∀ v : ℚ, (calculate_exercise m w cd s r false).weight_lbs = some v →
      v = ((pyRound (heavy_weight_for m w cd * 0.8) : ℤ) : ℚ)) ∧
    (∀ hw v : ℚ, (calculate_exercise m w cd s r true).weight_lbs = some hw →
      (calculate_exercise m w cd s r false).weight_lbs = some v →
      v = ((pyRound (hw * 0.8) : ℤ) : ℚ)) := by
  constructor
  · intro v hv
    simp only [calculate_exercise] at hv
    split at hv <;> simp_all
  · intro hw v h1 h2
    simp only [calculate_exercise] at h1 h2
    split at h1 <;> split at h2 <;> simp_all

/-- Witness for C5: week 1 of the spec's scenario prescribes 125 lbs
on the light day, which is `round(156 × 0.8)`. -/
theorem light_weight_derivation_witness :
    (125 : ℚ) =
      ((pyRound (heavy_weight_for sampleMovement 1 (computeMovement sampleMovement) * 0.8) : ℤ) : ℚ) :=
  (light_weight_derivation sampleMovement 1 (computeMovement sampleMovement) 5 5).1 125
    sampleMovement_week1_light

/-!
## C6: the movement calculator
-/

/-- C6. `computeMovement` takes the weekly-jump percentage from
`WEEKLY_JUMP_TABLE` (default 5) and the ramp-up percentage from
`RAMP_UP_TABLE` (default 55), derives the rounded pound values from
`one_rm`, and for `max_reps_at_80_percent` outside `1..20` falls back
to the defaults without raising. -/
theorem movement_calculator_spec (m : MovementInput) :
    (computeMovement m).weekly_jump_percent =
      dictGetD WEEKLY_JUMP_TABLE m.max_reps_at_80_percent 5 ∧
    (computeMovement m).weekly_jump_lbs =
      pyRound (m.one_rm * ((computeMovement m).weekly_jump_percent : ℚ) / 100) ∧
    (computeMovement m).ramp_up_percent =
      dictGetD RAMP_UP_TABLE m.max_reps_at_80_percent 55 ∧
    (computeMovement m).ramp_up_base_lbs =
      pyRound (m.one_rm * ((computeMovement m).ramp_up_percent : ℚ) / 100) ∧
    ((m.max_reps_at_80_percent < 1 ∨ 20 < m.max_reps_at_80_percent) →
      (computeMovement m).weekly_jump_percent = 5 ∧
      (computeMovement m).ramp_up_percent = 55) :=
  ⟨rfl, rfl, rfl, rfl, fun h => ⟨dictGetD_weekly_out _ h, dictGetD_ramp_out _ h⟩⟩

/-- Witness for C6 at `max_reps_at_80_percent = 21`: the defaults
apply and no error is raised. -/
theorem movement_calculator_spec_witness :
    (reps21Movement.max_reps_at_80_percent < 1 ∨
      20 < reps21Movement.max_reps_at_80_percent) ∧
    (computeMovement reps21Movement).weekly_jump_percent = 5 ∧
    (computeMovement reps21Movement).ramp_up_percent = 55 :=
  ⟨by decide, (movement_calculator_spec reps21Movement).2.2.2.2 (by decide)⟩

/-!
## C7: the testing week
-/

/-- C7. Week 8 is generated as exactly one day holding one
`ExerciseDetail` per movement, each `1×1` with no prescribed weight,
`percentage_1rm = 100`, the `"Test new 1RM. Previous: {one_rm} lbs"`
note and an upper-cased label, regardless of day-polarity logic. -/
theorem test_week_structure (inputs : ProgramInputs)
    (cd : List (String × MovementCalculations)) :
    generate_week 8 inputs cd = .ok
      { week_number := 8
        name := "Testing Week"
        days := [{ day_number := 1
                   name := "1RM Test Day"
                   suggested_day_of_week := some "Wednesday"
                   exercises := inputs.movements.map (fun m =>
                     { exercise_name := m.name.toUpper
                       sets := 1
                       reps := 1
                       weight_lbs := none
                       percentage_1rm := some 100
                       notes := "Test new 1RM. Previous: " ++ toString m.one_rm ++ " lbs" }) }] } ∧
    (generate_test_day inputs).exercises.length = inputs.movements.length := by
  constructor
  · rfl
  · simp [generate_test_day]

/-!
## C9: label case encodes day polarity
-/

/-- C9. The exercise label is the movement name upper-cased on heavy
days and in the test week, and lower-cased on light days. -/
theorem label_polarity (m : MovementInput) (w : ℤ) (cd : MovementCalculations)
    (s r : ℤ) (ip : ProgramInputs) :
    ((calculate_exercise m w cd s r true).exercise_name = m.name.toUpper) ∧
    ((calculate_exercise m w cd s r false).exercise_name = m.name.toLower) ∧
    (∀ e ∈ (generate_test_day ip).exercises, ∃ mv, mv ∈ ip.movements ∧
      e.exercise_name = mv.name.toUpper) := by
  refine ⟨rfl, rfl, ?_⟩
  intro e he
  simp only [generate_test_day, List.mem_map] at he
  obtain ⟨mv, hmv, rfl⟩ := he
  exact ⟨mv, hmv, rfl⟩

/-- Witness for C9 at the spec's concrete scenario. -/
theorem label_polarity_witness :
    ((calculate_exercise sampleMovement 1 (computeMovement sampleMovement) 5 5
        true).exercise_name = sampleMovement.name.toUpper) ∧
    ∃ mv, mv ∈ sampleInputs.movements ∧
      ((generate_test_day sampleInputs).exercises.headI).exercise_name = mv.name.toUpper :=
  ⟨(label_polarity sampleMovement 1 (computeMovement sampleMovement) 5 5 sampleInputs).1,
   (label_polarity sampleMovement 1 (computeMovement sampleMovement) 5 5 sampleInputs).2.2
     ((generate_test_day sampleInputs).exercises.headI)
     (by simp [generate_test_day, sampleInputs])⟩

/-!
## Schedule machinery: success and shape of `generate_week`
-/

lemma mapExcept_eq_ok {α β : Type} {f : α → Except PyError β} {l : List α}
    (h : ∀ x ∈ l, ∃ y, f x = .ok y) :
    ∃ ys, mapExcept f l = .ok ys ∧ ys.length = l.length ∧
      ∀ i : ℕ, ∀ hi : i < l.length, ∀ hi2 : i < ys.length,
        f (l.get ⟨i, hi⟩) = .ok (ys.get ⟨i, hi2⟩) := by
  induction l with
  | nil => exact ⟨[], rfl, rfl, fun i hi => absurd hi (Nat.not_lt_zero i)⟩
  | cons x xs ih =>
    obtain ⟨y, hy⟩ := h x (List.mem_cons_self x xs)
    obtain ⟨ys, hys, hlen, helt⟩ := ih (fun a ha => h a (List.mem_cons_of_mem x ha))
    refine ⟨y :: ys, ?_, by simp [hlen], ?_⟩
    · simp only [mapExcept, hy, hys]
    · intro i hi hi2
      cases i with
      | zero => simpa using hy
      | succ n => simpa using helt n (by simpa using hi) (by simpa using hi2)

lemma dictFind?_isSome_iff (d : List (String × MovementCalculations)) (k : String) :
    (dictFind? d k).isSome ↔ ∃ p ∈ d, p.1 = k := by
  simp [dictFind?, List.find?_isSome]

lemma exists_key_dictInsert (d : List (String × MovementCalculations)) (k : String)
    (v : MovementCalculations) : ∃ p ∈ dictInsert d k v, p.1 = k := by
  unfold dictInsert
  split
  · next hany =>
    obtain ⟨p, hp, hpk⟩ := List.any_eq_true.mp hany
    exact ⟨(k, v), List.mem_map.mpr ⟨p, hp, by simp [hpk]⟩, rfl⟩
  · exact ⟨(k, v), by simp, rfl⟩

lemma exists_key_dictInsert_of (d : List (String × MovementCalculations)) (k k' : String)
    (v : MovementCalculations) (h : ∃ p ∈ d, p.1 = k') :
    ∃ p ∈ dictInsert d k v, p.1 = k' := by
  obtain ⟨p, hp, hpk⟩ := h
  unfold dictInsert
  split
  · refine ⟨if p.1 == k then (k, v) else p, List.mem_map.mpr ⟨p, hp, rfl⟩, ?_⟩
    split
    · next hkk =>
      have hk : p.1 = k := by simpa using hkk
      rw [← hk]
      exact hpk
    · exact hpk
  · exact ⟨p, List.mem_append_left _ hp, hpk⟩

lemma exists_key_foldl (ms : List MovementInput) :
    ∀ (d : List (String × MovementCalculations)) (k : String),
      (∃ p ∈ d, p.1 = k) →
      ∃ p ∈ ms.foldl (fun result movement =>
        dictInsert result movement.name (computeMovement movement)) d, p.1 = k := by
  induction ms with
  | nil => intro d k h; simpa using h
  | cons m ms ih =>
    intro d k h
    simp only [List.foldl_cons]
    exact ih _ k (exists_key_dictInsert_of _ _ _ _ h)

lemma mem_key_foldl (ms : List MovementInput) (m : MovementInput) :
    m ∈ ms → ∀ d, ∃ p ∈ ms.foldl (fun result movement =>
      dictInsert result movement.name (computeMovement movement)) d, p.1 = m.name := by
  induction ms with
  | nil => intro hm; cases hm
  | cons a ms ih =>
    intro hm d
    simp only [List.foldl_cons]
    rcases List.mem_cons.mp hm with rfl | hm2
    · exact exists_key_foldl ms _ _ (exists_key_dictInsert d m.name (computeMovement m))
    · exact ih hm2 _

lemma calc_data_key (ms : List MovementInput) (m : MovementInput) (hm : m ∈ ms) :
    (dictFind? (calculate_movement_data ms) m.name).isSome := by
  rw [dictFind?_isSome_iff]
  unfold calculate_movement_data
  exact mem_key_foldl ms m hm []

lemma generate_day_ok (day_num week_num : ℤ) (inputs : ProgramInputs)
    (cd : List (String × MovementCalculations)) (sets reps : ℤ) (hv : Bool)
    (h : ∀ m ∈ inputs.movements, (dictFind? cd m.name).isSome) :
    ∃ d, generate_day day_num week_num inputs cd sets reps hv = .ok d ∧
      d.day_number = day_num ∧
      d.name = "Session " ++ toString day_num ++ " - " ++
        (if hv then "Heavy" else "Light") ++ " Day" ∧
      d.suggested_day_of_week =
        (DAY_NAMES.find? (fun p => p.1 == day_num)).map (fun p => p.2) := by
  have hx : ∀ m ∈ inputs.movements, ∃ e,
      (match dictFind? cd m.name with
       | none => Except.error (PyError.keyErrorStr m.name)
       | some calc_data =>
         Except.ok (calculate_exercise m week_num calc_data sets reps hv)) = Except.ok e := by
    intro m hm
    obtain ⟨c, hc⟩ := Option.isSome_iff_exists.mp (h m hm)
    exact ⟨_, by rw [hc]⟩
  obtain ⟨exs, hexs, -, -⟩ := mapExcept_eq_ok hx
  refine ⟨{ day_number := day_num
            name := "Session " ++ toString day_num ++ " - " ++
              (if hv then "Heavy" else "Light") ++ " Day"
            suggested_day_of_week :=
              (DAY_NAMES.find? (fun p => p.1 == day_num)).map (fun p => p.2)
            exercises := exs }, ?_, rfl, rfl, rfl⟩
  simp only [generate_day, hexs]

lemma pyRange_length (a b : ℤ) : (pyRange a b).length = (b - a).toNat := by
  unfold pyRange
  rw [List.length_map, List.length_range]

lemma pyRange_get (a b : ℤ) (i : ℕ) (hi : i < (pyRange a b).length) :
    (pyRange a b).get ⟨i, hi⟩ = a + (i : ℤ) := by
  simp only [pyRange, List.get_eq_getElem, List.getElem_map, List.getElem_range]

lemma mem_pyRange {a b w : ℤ} : w ∈ pyRange a b ↔ a ≤ w ∧ w < b := by
  unfold pyRange
  rw [List.mem_map]
  constructor
  · rintro ⟨i, hi, rfl⟩
    rw [List.mem_range] at hi
    omega
  · intro h
    refine ⟨(w - a).toNat, ?_, by omega⟩
    rw [List.mem_range]
    omega

lemma generate_week_ok (inputs : ProgramInputs) (w : ℤ)
    (h1 : 1 ≤ w) (h7 : w ≤ 7) (hd : 0 ≤ inputs.days_per_week) :
    ∃ week, generate_week w inputs (calculate_movement_data inputs.movements) = .ok week ∧
      week.week_number = w ∧
      (week.days.length : ℤ) = inputs.days_per_week ∧
      ∀ i : ℕ, ∀ hi : i < week.days.length,
        (week.days.get ⟨i, hi⟩).day_number = 1 + (i : ℤ) ∧
        (week.days.get ⟨i, hi⟩).name =
          "Session " ++ toString (1 + (i : ℤ)) ++ " - " ++
            (if (1 + (i : ℤ)) % 2 == 1 then "Heavy" else "Light") ++ " Day" ∧
        (week.days.get ⟨i, hi⟩).suggested_day_of_week =
          (DAY_NAMES.find? (fun p => p.1 == 1 + (i : ℤ))).map (fun p => p.2) := by
  have hcd : ∀ m ∈ inputs.movements,
      (dictFind? (calculate_movement_data inputs.movements) m.name).isSome :=
    fun m hm => calc_data_key inputs.movements m hm
  have hprot : ∃ sr : ℤ × ℤ,
      (PROTOCOL_BY_WEEK.find? (fun p => p.1 == w)).map (fun p => p.2) = some sr := by
    interval_cases w <;> exact ⟨_, rfl⟩
  obtain ⟨⟨sets, reps⟩, hprot⟩ := hprot
  have hday : ∀ dn ∈ pyRange 1 (inputs.days_per_week + 1), ∃ d,
      generate_day dn w inputs (calculate_movement_data inputs.movements) sets reps
        (dn % 2 == 1) = .ok d :=
    fun dn _ => (generate_day_ok dn w inputs _ sets reps (dn % 2 == 1) hcd).imp
      (fun d hd2 => hd2.1)
  obtain ⟨days, hdays, hlen, helt⟩ := mapExcept_eq_ok hday
  refine ⟨{ week_number := w, name := get_week_name w, days := days }, ?_, rfl, ?_, ?_⟩
  · simp only [generate_week, if_neg (by omega : ¬ w = 8), hprot, hdays]
  · rw [hlen, pyRange_length]
    omega
  · intro i hi
    have hi2 : i < (pyRange 1 (inputs.days_per_week + 1)).length := by
      rw [pyRange_length]
      rw [hlen, pyRange_length] at hi
      exact hi
    have hig := helt i hi2 hi
    rw [pyRange_get] at hig
    obtain ⟨d, hdok, hnum, hname, hsug⟩ :=
      generate_day_ok (1 + (i : ℤ)) w inputs (calculate_movement_data inputs.movements)
        sets reps ((1 + (i : ℤ)) % 2 == 1) hcd
    have heq : days.get ⟨i, hi⟩ = d := (Except.ok.inj (hdok.symm.trans hig)).symm
    rw [heq]
    exact ⟨hnum, hname, hsug⟩

lemma day_hint_lookup (dn : ℤ) :
    (DAY_NAMES.find? (fun p => p.1 == dn)).map (fun p => p.2) =
      (if dn = 1 then some "Monday"
       else if dn = 2 then some "Wednesday"
       else if dn = 3 then some "Friday"
       else if dn = 4 then some "Saturday"
       else none) := by
  by_cases e1 : dn = 1
  · subst e1; rfl
  by_cases e2 : dn = 2
  · subst e2; rfl
  by_cases e3 : dn = 3
  · subst e3; rfl
  by_cases e4 : dn = 4
  · subst e4; rfl
  rw [find?_key_eq_none]
  · simp [e1, e2, e3, e4]
  · intro p hp
    fin_cases hp <;> simp <;> omega

/-!
## C8: shape of a non-test week
-/

/-- C8. Every non-test week (weeks 1–7) has exactly `days_per_week`
days; day numbers count from 1, odd-numbered days are Heavy and
even-numbered days are Light in the session name, and the calendar
hint is Monday/Wednesday/Friday/Saturday for days 1–4 and `none`
beyond. -/
theorem week_day_structure (inputs : ProgramInputs) (w : ℤ)
    (h1 : 1 ≤ w) (h7 : w ≤ 7) (hd : 0 ≤ inputs.days_per_week) :
    ∃ week, generate_week w inputs (calculate_movement_data inputs.movements) = .ok week ∧
      (week.days.length : ℤ) = inputs.days_per_week ∧
      ∀ i : ℕ, ∀ hi : i < week.days.length,
        (week.days.get ⟨i, hi⟩).day_number = (i : ℤ) + 1 ∧
        ((week.days.get ⟨i, hi⟩).day_number % 2 = 1 →
          (week.days.get ⟨i, hi⟩).name =
            "Session " ++ toString (week.days.get ⟨i, hi⟩).day_number ++ " - " ++
              "Heavy" ++ " Day") ∧
        ((week.days.get ⟨i, hi⟩).day_number % 2 = 0 →
          (week.days.get ⟨i, hi⟩).name =
            "Session " ++ toString (week.days.get ⟨i, hi⟩).day_number ++ " - " ++
              "Light" ++ " Day") ∧
        (week.days.get ⟨i, hi⟩).suggested_day_of_week =
          (if (week.days.get ⟨i, hi⟩).day_number = 1 then some "Monday"
           else if (week.days.get ⟨i, hi⟩).day_number = 2 then some "Wednesday"
           else if (week.days.get ⟨i, hi⟩).day_number = 3 then some "Friday"
           else if (week.days.get ⟨i, hi⟩).day_number = 4 then some "Saturday"
           else none) := by
  obtain ⟨week, hwok, hwnum, hwd, hdetail⟩ := generate_week_ok inputs w h1 h7 hd
  refine ⟨week, hwok, hwd, ?_⟩
  intro i hi
  obtain ⟨hnum, hname, hsug⟩ := hdetail i hi
  refine ⟨by omega, ?_, ?_, ?_⟩
  · intro hodd
    rw [hname, hnum]
    have : ((1 + (i : ℤ)) % 2 == 1) = true := by
      rw [hnum] at hodd
      simpa using hodd
    rw [this]
    simp
  · intro heven
    rw [hname, hnum]
    have : ((1 + (i : ℤ)) % 2 == 1) = false := by
      rw [hnum] at heven
      simp
      omega
    rw [this]
    simp
  · rw [hsug, hnum, day_hint_lookup]

/-- Witness for C8 at week 1 of the spec's concrete scenario. -/
theorem week_day_structure_witness :
    ∃ week, generate_week 1 sampleInputs
        (calculate_movement_data sampleInputs.movements) = .ok week ∧
      (week.days.length : ℤ) = sampleInputs.days_per_week ∧
      ∀ i : ℕ, ∀ hi : i < week.days.length,
        (week.days.get ⟨i, hi⟩).day_number = (i : ℤ) + 1 ∧
        ((week.days.get ⟨i, hi⟩).day_number % 2 = 1 →
          (week.days.get ⟨i, hi⟩).name =
            "Session " ++ toString (week.days.get ⟨i, hi⟩).day_number ++ " - " ++
              "Heavy" ++ " Day") ∧
        ((week.days.get ⟨i, hi⟩).day_number % 2 = 0 →
          (week.days.get ⟨i, hi⟩).name =
            "Session " ++ toString (week.days.get ⟨i, hi⟩).day_number ++ " - " ++
              "Light" ++ " Day") ∧
        (week.days.get ⟨i, hi⟩).suggested_day_of_week =
          (if (week.days.get ⟨i, hi⟩).day_number = 1 then some "Monday"
           else if (week.days.get ⟨i, hi⟩).day_number = 2 then some "Wednesday"
           else if (week.days.get ⟨i, hi⟩).day_number = 3 then some "Friday"
           else if (week.days.get ⟨i, hi⟩).day_number = 4 then some "Saturday"
           else none) :=
  week_day_structure sampleInputs 1 (by decide) (by decide) (by decide)

/-!
## C10: short durations
-/

/-- C10. For `1 ≤ duration_weeks ≤ 7` the generator succeeds and
returns exactly `duration_weeks` weeks numbered `1..duration_weeks`
in order, none of which is the testing week: each is a non-test week
with `days_per_week` days. -/
theorem generate_short_duration (inputs : ProgramInputs)
    (h1 : 1 ≤ inputs.duration_weeks) (h7 : inputs.duration_weeks ≤ 7)
    (hd : 0 ≤ inputs.days_per_week) :
    ∃ p, generate_preview inputs = .ok p ∧
      (p.weeks.length : ℤ) = inputs.duration_weeks ∧
      ∀ i : ℕ, ∀ hi : i < p.weeks.length,
        (p.weeks.get ⟨i, hi⟩).week_number = (i : ℤ) + 1 ∧
        (p.weeks.get ⟨i, hi⟩).week_number ≠ 8 ∧
        ((p.weeks.get ⟨i, hi⟩).days.length : ℤ) = inputs.days_per_week := by
  have hweek : ∀ w ∈ pyRange 1 (inputs.duration_weeks + 1), ∃ week,
      generate_week w inputs (calculate_movement_data inputs.movements) = .ok week := by
    intro w hw
    have hwb := mem_pyRange.mp hw
    exact (generate_week_ok inputs w hwb.1 (by omega) hd).imp (fun x hx => hx.1)
  obtain ⟨weeks, hweeks, hlen, helt⟩ := mapExcept_eq_ok hweek
  refine ⟨{ algorithm_version := VERSION, input_data := inputs,
            calculated_data := calculate_movement_data inputs.movements,
            weeks := weeks }, ?_, ?_, ?_⟩
  · simp only [generate_preview, generate_weeks, hweeks]
  · rw [hlen, pyRange_length]
    omega
  · intro i hi
    have hi2 : i < (pyRange 1 (inputs.duration_weeks + 1)).length := by
      rw [pyRange_length]
      rw [hlen, pyRange_length] at hi
      exact hi
    have hig := helt i hi2 hi
    rw [pyRange_get] at hig
    have hi7 : (i : ℤ) + 1 ≤ 7 := by
      rw [hlen, pyRange_length] at hi
      omega
    obtain ⟨week, hwok, hwnum, hwdays, -⟩ :=
      generate_week_ok inputs (1 + (i : ℤ)) (by omega) (by omega) hd
    have heq : weeks.get ⟨i, hi⟩ = week := (Except.ok.inj (hwok.symm.trans hig)).symm
    rw [heq]
    exact ⟨by omega, by omega, hwdays⟩

/-- Witness for C10 at a 3-week request. -/
theorem generate_short_duration_witness :
    ∃ p, generate_preview shortInputs = .ok p ∧
      (p.weeks.length : ℤ) = shortInputs.duration_weeks ∧
      ∀ i : ℕ, ∀ hi : i < p.weeks.length,
        (p.weeks.get ⟨i, hi⟩).week_number = (i : ℤ) + 1 ∧
        (p.weeks.get ⟨i, hi⟩).week_number ≠ 8 ∧
        ((p.weeks.get ⟨i, hi⟩).days.length : ℤ) = shortInputs.days_per_week :=
  generate_short_duration shortInputs (by decide) (by decide) (by decide)

end StrengthProgramGenerator
